import Mathlib

/-!
MegEngine: `lar::ModelMdl` and `megdnn::x86::AddUpdateImpl`.

A shallow embedding of the inline member functions of
`lite/load_and_run/src/models/model_mdl.h` and of
`dnn/src/x86/add_update/opr_impl.h`, with the properties of the
specification stated and proved over it.

Conventions of the embedding.

* A member function `void f(args)` of `ModelMdl` is a function
  `args → Machine → Outcome Unit`: it receives the state before the call and
  returns either `Outcome.ok` with the state after the call, or
  `Outcome.thrown` with the exception and the state at the moment it was
  thrown.
* `std::vector<T>` is `List T`, `std::string` is `String`, `bool` is `Bool`,
  `uint32_t` and `size_t` are `Nat` (no arithmetic that could wrap is done on
  them in this header, apart from the loop counter, which is bounded by the
  size of a vector).
* `std::unique_ptr<T>` and `std::shared_ptr<T>` are `Option (Boxed T)`: empty,
  or the object together with the address it was allocated at. Addresses
  give objects an identity, so that "the old handle" and "the new handle" can
  be told apart even when they were built from the same arguments.
* Types declared outside the two headers and only stored or copied by them
  (callbacks, load result, parser, ...) are represented by an identifying tag.
* `MGB_ENABLE_JSON` is taken to be on, so that the profiler slot and
  `set_profiler` exist.
-/

namespace lar

/-! ## External types -/

/-- Heap address of an object. -/
abbrev Addr := Nat

/-- The C++ type float, represented by the bit pattern of the value. The
header only passes such a value on, it never computes with it. -/
structure float where
  bits : Nat
deriving DecidableEq, Repr

/-- Modelled from the spec: the declaration of
`mgb::opr::mixin::AlgoChooserHelper::ExecutionPolicy::Strategy` is not in the
two headers (only the enumerator `HEURISTIC` is named there). The spec calls
it "an enumerated policy value (e.g., Heuristic, Profile,
ProfileReproducible, ...)"; `other` stands for the values the spec leaves
open. -/
inductive Strategy where
  | HEURISTIC
  | PROFILE
  | PROFILE_REPRODUCIBLE
  | other (code : Nat)
deriving DecidableEq, Repr

/-- The type `mgb::ComputingGraph::Callback`. The header copies callbacks and
never calls them, so a callback is represented by a tag that identifies it. -/
structure Callback where
  tag : Nat
deriving DecidableEq, Repr

/-- The type `mgb::serialization::InputFile` (contents not used by the header). -/
structure InputFile where
  tag : Nat
deriving DecidableEq, Repr

/-- The type `mgb::serialization::GraphLoader` (contents not used by the header). -/
structure GraphLoader where
  tag : Nat
deriving DecidableEq, Repr

/-- The type `mgb::serialization::GraphLoader::LoadResult` (contents not used
by the header). -/
structure LoadResult where
  tag : Nat
deriving DecidableEq, Repr

/-- The type `mgb::cg::AsyncExecutable` (contents not used by the header). -/
structure AsyncExecutable where
  tag : Nat
deriving DecidableEq, Repr

/-- The type `lar::DataParser` (contents not used by the header). -/
structure DataParser where
  tag : Nat
deriving DecidableEq, Repr

/-- The type `mgb::ComputingGraph::OutputSpec` (contents not used by the header). -/
structure OutputSpec where
  tag : Nat
deriving DecidableEq, Repr

/-- An object on the heap: the address it lives at and its value. -/
structure Boxed (T : Type) where
  addr : Addr
  obj : T
deriving DecidableEq, Repr

/-- The smart pointer `std::unique_ptr<T>`: empty, or owning one object. -/
abbrev unique_ptr (T : Type) := Option (Boxed T)

/-- The smart pointer `std::shared_ptr<T>`: empty, or sharing one object. -/
abbrev shared_ptr (T : Type) := Option (Boxed T)

/-- The member `get()` of a smart pointer: the raw pointer, `none` for null. -/
def smart_ptr_get {T : Type} (p : Option (Boxed T)) : Option Addr :=
  p.map Boxed.addr

/-- The type `mgb::ComputingGraph` (contents not used by the header). -/
structure ComputingGraph where
  tag : Nat
deriving DecidableEq, Repr

/-- The type `mgb::serialization::GraphLoadConfig`. The header reads its member
`comp_graph`, a shared pointer to the computing graph; `others` stands for
the remaining members. -/
structure GraphLoadConfig where
  comp_graph : shared_ptr ComputingGraph
  others : Nat
deriving DecidableEq, Repr

/-- The object built by `mgb::NumRangeChecker(graph, range)`: the header hands
the constructor a raw pointer to the graph and the threshold, and the object is
recorded as these two constructor arguments. -/
structure NumRangeChecker where
  graph : Option Addr
  range : float
deriving DecidableEq, Repr

/-- The object built by `mgb::GraphProfiler(graph)`, recorded as its
constructor argument, a raw pointer to the graph. -/
structure GraphProfiler where
  graph : Option Addr
deriving DecidableEq, Repr

/-! ## The class `ModelMdl` -/

/-- The data members of `class ModelMdl` (model_mdl.h, lines 92-112), in
declaration order. `HostTensorND*` is a raw pointer. -/
structure ModelMdl where
  share_model_mem : Bool
  model_path : String
  m_model_file : unique_ptr InputFile
  m_load_config : GraphLoadConfig
  m_load_result : LoadResult
  m_loader : shared_ptr GraphLoader
  m_asyc_exec : unique_ptr AsyncExecutable
  testcase_num : Nat
  test_input_tensors : List (String × Option Addr)
  parser : DataParser
  m_strategy : Strategy
  m_callbacks : List Callback
  m_output_spec : OutputSpec
  m_num_range_checker : unique_ptr NumRangeChecker
  m_profiler : unique_ptr GraphProfiler
deriving DecidableEq, Repr

/-- The free store: `next` is the address the next allocation returns, `live`
lists the addresses of the objects that have been allocated and not yet
destroyed. -/
structure Heap where
  next : Addr
  live : List Addr
deriving DecidableEq, Repr

/-- The state a member function of `ModelMdl` runs in: the object itself and
the free store. -/
structure Machine where
  heap : Heap
  mdl : ModelMdl
deriving DecidableEq, Repr

/-- Exceptions. -/
inductive Exn where
  | AssertionError (msg : String)
  | InvalidStateError
deriving DecidableEq, Repr

/-- Result of a call: normal return with a value and the state after the
call, or an exception together with the state at the moment it was thrown. -/
inductive Outcome (S : Type) (A : Type) where
  | ok (val : A) (st : S)
  | thrown (e : Exn) (st : S)
deriving DecidableEq, Repr

/-- The state a call ends in, whether it returned or threw. -/
def Outcome.state {S A : Type} : Outcome S A → S
  | .ok _ st => st
  | .thrown _ st => st

/-- Modelled from the spec: the macro `mgb_assert` (megbrain/common.h) is not
under src/. A failed check aborts the current transition by raising an error
that carries the message, before anything after it runs; a check that holds
has no effect. -/
def mgb_assert {S : Type} (cond : Bool) (msg : String) (st : S) : Outcome S Unit :=
  if cond then .ok () st else .thrown (.AssertionError msg) st

/-- The call `std::make_unique<T>(args)`: a new object at a fresh address. -/
def make_unique {T : Type} (h : Heap) (obj : T) : Boxed T × Heap :=
  (⟨h.next, obj⟩, ⟨h.next + 1, h.next :: h.live⟩)

/-- Destruction of the object at address `a`. -/
def Heap.delete (h : Heap) (a : Addr) : Heap :=
  ⟨h.next, h.live.filter (fun b => b != a)⟩

/-- Move assignment `slot = std::move(p)` of a `std::unique_ptr`: the slot
takes over `p`, and the object the slot owned before, if any, is destroyed. -/
def unique_ptr_assign {T : Type} (h : Heap) (slot : unique_ptr T) (p : Boxed T) :
    unique_ptr T × Heap :=
  (some p, match slot with
           | none => h
           | some old => h.delete old.addr)

/-! ### Inline member functions -/

/-- Line 35: `void set_shared_mem(bool state) { share_model_mem = state; }`. -/
def set_shared_mem (state : Bool) (s : Machine) : Outcome Machine Unit :=
  .ok () { s with mdl := { s.mdl with share_model_mem := state } }

/-- Line 57: `void set_mdl_strategy(Strategy& u_strategy) { m_strategy = u_strategy; }`. -/
def set_mdl_strategy (u_strategy : Strategy) (s : Machine) : Outcome Machine Unit :=
  .ok () { s with mdl := { s.mdl with m_strategy := u_strategy } }

/-- Line 58: `Strategy& get_mdl_strategy() { return m_strategy; }`; the value
read through the returned reference. -/
def get_mdl_strategy (s : Machine) : Strategy :=
  s.mdl.m_strategy

/-- Line 62: `uint32_t get_testcase_num() { return testcase_num; }`. -/
def get_testcase_num (s : Machine) : Nat :=
  s.mdl.testcase_num

/-- Line 69: `get_async_func() { return m_asyc_exec; }`; the slot the
returned reference refers to. -/
def get_async_func (s : Machine) : unique_ptr AsyncExecutable :=
  s.mdl.m_asyc_exec

/-- Lines 75-77: the loop
`for (size_t i = 0; i < cb.size(); i++) { m_callbacks[i] = cb[i]; }`
started at counter value `i` on the vector `cbs`. Each round tests
`i < cb.size()`, stores, and increments; `fuel` bounds the number of rounds. -/
def set_output_callback_loop (cb : List Callback) : Nat → Nat → List Callback → List Callback
  | 0, _, cbs => cbs
  | fuel + 1, i, cbs =>
    if h : i < cb.length then
      set_output_callback_loop cb fuel (i + 1) (cbs.set i (cb.get ⟨i, h⟩))
    else cbs

/-- Lines 71-78: `set_output_callback`. The assertion on the sizes comes
first; the loop runs only when it holds. The loop makes at most `cb.size()`
rounds, which is the fuel it is given. -/
def set_output_callback (cb : List Callback) (s : Machine) : Outcome Machine Unit :=
  match mgb_assert (s.mdl.m_callbacks.length == cb.length)
      "invalid output callback list to set!!" s with
  | .thrown e st => .thrown e st
  | .ok _ st =>
    .ok () { st with mdl := { st.mdl with
      m_callbacks := set_output_callback_loop cb cb.length 0 st.mdl.m_callbacks } }

/-- Lines 81-84: `set_profiler`:
`m_profiler = std::make_unique<mgb::GraphProfiler>(m_load_config.comp_graph.get());`. -/
def set_profiler (s : Machine) : Outcome Machine Unit :=
  let made := make_unique s.heap (GraphProfiler.mk (smart_ptr_get s.mdl.m_load_config.comp_graph))
  let assigned := unique_ptr_assign made.2 s.mdl.m_profiler made.1
  .ok () { heap := assigned.2, mdl := { s.mdl with m_profiler := assigned.1 } }

/-- Lines 86-89: `set_num_range_checker`:
`m_num_range_checker = std::make_unique<mgb::NumRangeChecker>(m_load_config.comp_graph.get(), range);`. -/
def set_num_range_checker (range : float) (s : Machine) : Outcome Machine Unit :=
  let made := make_unique s.heap
    (NumRangeChecker.mk (smart_ptr_get s.mdl.m_load_config.comp_graph) range)
  let assigned := unique_ptr_assign made.2 s.mdl.m_num_range_checker made.1
  .ok () { heap := assigned.2, mdl := { s.mdl with m_num_range_checker := assigned.1 } }

/-- Sequencing of two calls: the second runs in the state the first returned
in; an exception thrown by the first propagates. -/
def Outcome.andThen {S A B : Type} (r : Outcome S A) (f : S → Outcome S B) : Outcome S B :=
  match r with
  | .ok _ st => f st
  | .thrown e st => .thrown e st

/-- Whether a call returned normally. -/
def Outcome.returned {S A : Type} : Outcome S A → Bool
  | .ok _ _ => true
  | .thrown _ _ => false

/-- Line 105: `Strategy m_strategy = Strategy::HEURISTIC;`, the only default
member initialiser of the class. The constructor is defined in
model_mdl.cpp, which is not under src/, so what it makes of the other
members is the parameter `raw`. -/
def default_member_init (raw : ModelMdl) : ModelMdl :=
  { raw with m_strategy := Strategy.HEURISTIC }

/-- The configuration operations the header defines inline, with their
arguments. -/
inductive ConfigOp where
  | set_shared_mem (state : Bool)
  | set_mdl_strategy (u_strategy : Strategy)
  | set_output_callback (cb : List Callback)
  | set_profiler
  | set_num_range_checker (range : float)
deriving DecidableEq, Repr

/-- The call a configuration operation stands for. -/
def ConfigOp.run : ConfigOp → Machine → Outcome Machine Unit
  | .set_shared_mem state => lar.set_shared_mem state
  | .set_mdl_strategy u => lar.set_mdl_strategy u
  | .set_output_callback cb => lar.set_output_callback cb
  | .set_profiler => lar.set_profiler
  | .set_num_range_checker r => lar.set_num_range_checker r

/-- Whether the operation is a call of `set_mdl_strategy`. -/
def ConfigOp.is_set_mdl_strategy : ConfigOp → Bool
  | .set_mdl_strategy _ => true
  | _ => false

/-- A caller making the operations one after the other, going on after a call
that threw (in the state the exception left). -/
def run_ops : List ConfigOp → Machine → Machine
  | [], s => s
  | op :: ops, s => run_ops ops (op.run s).state

/-- Every live address is below the next address to be handed out. -/
def Heap.wf (h : Heap) : Prop :=
  ∀ a ∈ h.live, a < h.next

instance (h : Heap) : Decidable h.wf := by
  unfold Heap.wf
  infer_instance

/-- The object a smart pointer holds, if any, is live. -/
def slot_live {T : Type} (h : Heap) (slot : Option (Boxed T)) : Prop :=
  ∀ p ∈ slot, p.addr ∈ h.live

instance {T : Type} (h : Heap) (slot : Option (Boxed T)) : Decidable (slot_live h slot) := by
  unfold slot_live
  cases slot with
  | none => exact isTrue (by simp)
  | some p =>
    by_cases hp : p.addr ∈ h.live
    · exact isTrue (by simpa using hp)
    · exact isFalse (by simpa using hp)

/-! ### The lifecycle of the specification -/

/-- Modelled from the spec: the states of the executor's state machine,
"Unloaded → Loaded → Configured → Compiled → Running → Completed, plus an
Error absorbing state". The header has no member that records them. -/
inductive ExecutorState where
  | Unloaded
  | Loaded
  | Configured
  | Compiled
  | Running
  | Completed
  | Error
deriving DecidableEq, Repr

/-- Modelled from the spec: the executor of the specification, the model
object together with its lifecycle state. -/
structure ModelExecutor where
  machine : Machine
  state : ExecutorState
deriving DecidableEq, Repr

/-- Modelled from the spec: `ModelMdl::wait` is declared on line 43 and defined
in model_mdl.cpp, which is not under src/. The spec: "wait(): Running →
Completed", "Calling wait() before run() is an InvalidStateError", and an
InvalidStateError "leaves state unchanged". Only the lifecycle is modelled;
the delivery of results to callbacks happens outside the model object. -/
def wait (ex : ModelExecutor) : Outcome ModelExecutor Unit :=
  match ex.state with
  | .Running => .ok () { ex with state := ExecutorState.Completed }
  | _ => .thrown .InvalidStateError ex

/-! ### Sample states -/

/-- A model with two output callbacks, a computing graph at address 0 and
nothing compiled or attached. -/
def sampleModel : ModelMdl where
  share_model_mem := false
  model_path := "resnet.mdl"
  m_model_file := none
  m_load_config := ⟨some ⟨0, ⟨0⟩⟩, 0⟩
  m_load_result := ⟨0⟩
  m_loader := none
  m_asyc_exec := none
  testcase_num := 3
  test_input_tensors := []
  parser := ⟨0⟩
  m_strategy := Strategy.HEURISTIC
  m_callbacks := [⟨10⟩, ⟨11⟩]
  m_output_spec := ⟨0⟩
  m_num_range_checker := none
  m_profiler := none

/-- The sample model on a heap that holds its computing graph. -/
def sampleMachine : Machine :=
  ⟨⟨1, [0]⟩, sampleModel⟩

/-- The sample model after compilation: the executable slot is filled. -/
def compiledMachine : Machine :=
  ⟨⟨2, [1, 0]⟩, { sampleModel with m_asyc_exec := some ⟨1, ⟨0⟩⟩ }⟩

/-- The sample model with a range checker (threshold bits 5) and a profiler
attached. -/
def instrumentedMachine : Machine :=
  ⟨⟨3, [2, 1, 0]⟩, { sampleModel with
    m_num_range_checker := some ⟨1, ⟨some 0, ⟨5⟩⟩⟩
    m_profiler := some ⟨2, ⟨some 0⟩⟩ }⟩

end lar

namespace megdnn
namespace x86

/-- The class `megdnn::x86::AddUpdateImpl` (opr_impl.h, lines 18-24). It adds
no data member to its base class `megdnn::fallback::AddUpdateImpl`, which is
declared outside src/; the state of the base sub-object is the parameter
`Base`. -/
structure AddUpdateImpl (Base : Type) where
  base : Base

/-- Line 23: `bool is_thread_safe() const override { return true; }`. The
result is the returned value together with the operator after the call. -/
def AddUpdateImpl.is_thread_safe {Base : Type} (self : AddUpdateImpl Base) :
    Bool × AddUpdateImpl Base :=
  (true, self)

end x86
end megdnn

namespace lar

/-! ## Lemmas on the embedding -/

theorem set_output_callback_loop_eq (cb : List Callback) :
    ∀ (fuel i : Nat) (cbs : List Callback), cb.length ≤ i + fuel → cbs.length = cb.length →
      set_output_callback_loop cb fuel i cbs = cbs.take i ++ cb.drop i := by
  intro fuel
  induction fuel with
  | zero =>
    intro i cbs hfuel hlen
    have h1 : cb.length ≤ i := by omega
    simp [set_output_callback_loop, List.drop_eq_nil_of_le h1,
      List.take_of_length_le (by omega : cbs.length ≤ i)]
  | succ fuel ih =>
    intro i cbs hfuel hlen
    unfold set_output_callback_loop
    by_cases h : i < cb.length
    · rw [dif_pos h, ih (i + 1) _ (by omega) (by simpa using hlen)]
      apply List.ext_getElem?
      intro j
      simp only [List.getElem?_append, List.getElem?_take, List.getElem?_drop,
        List.length_take, List.length_set, List.getElem?_set]
      have hm1 : min (i + 1) cbs.length = i + 1 := by omega
      have hm2 : min i cbs.length = i := by omega
      rw [hm1, hm2]
      rcases Nat.lt_trichotomy j i with hj | hj | hj
      · have h1 : j < i + 1 := by omega
        have h2 : i ≠ j := by omega
        simp [hj, h1, h2]
      · subst hj
        have h3 : j < cbs.length := by omega
        simp [h3]
      · have h1 : ¬ j < i + 1 := by omega
        have h2 : ¬ j < i := by omega
        have h4 : i + 1 + (j - (i + 1)) = i + (j - i) := by omega
        simp [h1, h2, h4]
    · rw [dif_neg h]
      have h1 : cb.length ≤ i := by omega
      simp [List.drop_eq_nil_of_le h1, List.take_of_length_le (by omega : cbs.length ≤ i)]

/-- Run from counter 0 on a vector of the same size, the loop of
`set_output_callback` ends with the vector equal to `cb`. -/
theorem set_output_callback_loop_full (cb cbs : List Callback) (hlen : cbs.length = cb.length) :
    set_output_callback_loop cb cb.length 0 cbs = cb := by
  rw [set_output_callback_loop_eq cb cb.length 0 cbs (by omega) hlen]
  simp

theorem set_output_callback_of_eq (cb : List Callback) (s : Machine)
    (h : s.mdl.m_callbacks.length = cb.length) :
    set_output_callback cb s = .ok () { s with mdl := { s.mdl with m_callbacks := cb } } := by
  simp [set_output_callback, mgb_assert, h, set_output_callback_loop_full cb _ h]

theorem set_output_callback_of_ne (cb : List Callback) (s : Machine)
    (h : s.mdl.m_callbacks.length ≠ cb.length) :
    set_output_callback cb s =
      .thrown (.AssertionError "invalid output callback list to set!!") s := by
  simp [set_output_callback, mgb_assert, h]

theorem testcase_num_run (op : ConfigOp) (s : Machine) :
    (op.run s).state.mdl.testcase_num = s.mdl.testcase_num := by
  cases op with
  | set_shared_mem b => rfl
  | set_mdl_strategy u => rfl
  | set_output_callback cb =>
    by_cases h : s.mdl.m_callbacks.length = cb.length
    · simp [ConfigOp.run, set_output_callback_of_eq cb s h, Outcome.state]
    · simp [ConfigOp.run, set_output_callback_of_ne cb s h, Outcome.state]
  | set_profiler => rfl
  | set_num_range_checker r => rfl

theorem m_strategy_run (op : ConfigOp) (s : Machine) (h : op.is_set_mdl_strategy = false) :
    (op.run s).state.mdl.m_strategy = s.mdl.m_strategy := by
  cases op with
  | set_shared_mem b => rfl
  | set_mdl_strategy u => simp [ConfigOp.is_set_mdl_strategy] at h
  | set_output_callback cb =>
    by_cases h : s.mdl.m_callbacks.length = cb.length
    · simp [ConfigOp.run, set_output_callback_of_eq cb s h, Outcome.state]
    · simp [ConfigOp.run, set_output_callback_of_ne cb s h, Outcome.state]
  | set_profiler => rfl
  | set_num_range_checker r => rfl

theorem heap_wf_delete (h : Heap) (a : Addr) (hwf : h.wf) : (h.delete a).wf := by
  intro b hb
  simp only [Heap.delete, List.mem_filter] at hb
  exact hwf b hb.1

theorem heap_wf_make_unique {T : Type} (h : Heap) (obj : T) (hwf : h.wf) :
    (make_unique h obj).2.wf := by
  intro b hb
  simp only [make_unique, List.mem_cons] at hb
  rcases hb with hb | hb
  · rw [hb]; exact Nat.lt_succ_self _
  · exact Nat.lt_succ_of_lt (hwf b hb)

theorem heap_wf_assign {T : Type} (h : Heap) (slot : unique_ptr T) (p : Boxed T)
    (hwf : h.wf) : (unique_ptr_assign h slot p).2.wf := by
  cases slot with
  | none => exact hwf
  | some old => exact heap_wf_delete h old.addr hwf

/-- Well-formedness of the heap is kept by every configuration operation. -/
theorem heap_wf_run (op : ConfigOp) (s : Machine) (hwf : s.heap.wf) :
    (op.run s).state.heap.wf := by
  cases op with
  | set_shared_mem b => exact hwf
  | set_mdl_strategy u => exact hwf
  | set_output_callback cb =>
    by_cases h : s.mdl.m_callbacks.length = cb.length
    · simpa [ConfigOp.run, set_output_callback_of_eq cb s h, Outcome.state] using hwf
    · simpa [ConfigOp.run, set_output_callback_of_ne cb s h, Outcome.state] using hwf
  | set_profiler =>
    exact heap_wf_assign _ s.mdl.m_profiler
      (make_unique s.heap (GraphProfiler.mk (smart_ptr_get s.mdl.m_load_config.comp_graph))).1
      (heap_wf_make_unique _ _ hwf)
  | set_num_range_checker r =>
    exact heap_wf_assign _ s.mdl.m_num_range_checker
      (make_unique s.heap
        (NumRangeChecker.mk (smart_ptr_get s.mdl.m_load_config.comp_graph) r)).1
      (heap_wf_make_unique _ _ hwf)

/-- The spec-modelled `wait` does succeed once the executor is running. -/
theorem wait_of_running (ex : ModelExecutor) (h : ex.state = .Running) :
    wait ex = .ok () { ex with state := ExecutorState.Completed } := by
  simp [wait, h]

/-! ## The claims -/

/-- C1: `set_output_callback` returns normally exactly when `cb` is as long as
the callback list of the model, and then it preserves order: if both lists
have length `n`, the callback list after the call has length `n` and its
`i`-th element is `cb[i]` for every `i < n`; the list after the call is `cb`
itself and nothing else in the state has changed. -/
theorem set_output_callback_same_length (s : Machine) (cb : List Callback) :
    ((set_output_callback cb s).returned = true ↔ s.mdl.m_callbacks.length = cb.length) ∧
    ∀ n : Nat, s.mdl.m_callbacks.length = n → cb.length = n →
      ∃ s', set_output_callback cb s = .ok () s' ∧
        s'.mdl.m_callbacks.length = n ∧
        (∀ i : Nat, i < n → s'.mdl.m_callbacks[i]? = cb[i]? ∧ (cb[i]?).isSome = true) ∧
        s'.mdl.m_callbacks = cb ∧
        s' = { s with mdl := { s.mdl with m_callbacks := cb } } := by
  constructor
  · by_cases h : s.mdl.m_callbacks.length = cb.length
    · simp [set_output_callback_of_eq cb s h, Outcome.returned, h]
    · simp [set_output_callback_of_ne cb s h, Outcome.returned, h]
  · intro n hm hc
    refine ⟨_, set_output_callback_of_eq cb s (hm.trans hc.symm), hc, ?_, rfl, rfl⟩
    intro i hi
    refine ⟨rfl, ?_⟩
    have hi2 : i < cb.length := by omega
    simp [hi2]

/-- Witness of C1 on the sample model (two callbacks) and a list of two new
callbacks. -/
theorem set_output_callback_same_length_witness :
    (sampleMachine.mdl.m_callbacks.length = 2 ∧ [Callback.mk 20, Callback.mk 21].length = 2) ∧
    ∃ s', set_output_callback [Callback.mk 20, Callback.mk 21] sampleMachine = .ok () s' ∧
      s'.mdl.m_callbacks.length = 2 ∧
      (∀ i : Nat, i < 2 → s'.mdl.m_callbacks[i]? = [Callback.mk 20, Callback.mk 21][i]? ∧
        ([Callback.mk 20, Callback.mk 21][i]?).isSome = true) ∧
      s'.mdl.m_callbacks = [Callback.mk 20, Callback.mk 21] ∧
      s' = { sampleMachine with
        mdl := { sampleMachine.mdl with m_callbacks := [Callback.mk 20, Callback.mk 21] } } :=
  ⟨⟨rfl, rfl⟩,
    (set_output_callback_same_length sampleMachine [Callback.mk 20, Callback.mk 21]).2 2 rfl rfl⟩

/-- C2: when `cb` and the callback list of the model differ in length,
`set_output_callback` throws the assertion error "invalid output callback list
to set!!", and the state at that moment is the state before the call: no
element of `m_callbacks` has been overwritten. -/
theorem set_output_callback_rejected (s : Machine) (cb : List Callback)
    (h : s.mdl.m_callbacks.length ≠ cb.length) :
    set_output_callback cb s =
        .thrown (.AssertionError "invalid output callback list to set!!") s ∧
      (set_output_callback cb s).state = s ∧
      (set_output_callback cb s).state.mdl.m_callbacks = s.mdl.m_callbacks := by
  simp [set_output_callback_of_ne cb s h, Outcome.state]

/-- Witness of C2: one callback offered to the sample model, which has two. -/
theorem set_output_callback_rejected_witness :
    sampleMachine.mdl.m_callbacks.length ≠ [Callback.mk 20].length ∧
    set_output_callback [Callback.mk 20] sampleMachine =
        .thrown (.AssertionError "invalid output callback list to set!!") sampleMachine ∧
      (set_output_callback [Callback.mk 20] sampleMachine).state = sampleMachine ∧
      (set_output_callback [Callback.mk 20] sampleMachine).state.mdl.m_callbacks =
        sampleMachine.mdl.m_callbacks :=
  ⟨by decide, set_output_callback_rejected sampleMachine [Callback.mk 20] (by decide)⟩

/-- C3, as stated, fails: on a model whose executable slot is filled and whose
strategy is `HEURISTIC`, `set_mdl_strategy(PROFILE)` is not rejected with an
`InvalidStateError`; it returns normally and the stored strategy is now
`PROFILE`. -/
theorem set_mdl_strategy_compiled_not_rejected :
    (get_async_func compiledMachine).isSome = true ∧
    get_mdl_strategy compiledMachine = Strategy.HEURISTIC ∧
    (set_mdl_strategy Strategy.PROFILE compiledMachine).returned = true ∧
    (¬ ∃ st, set_mdl_strategy Strategy.PROFILE compiledMachine =
        .thrown .InvalidStateError st) ∧
    get_mdl_strategy (set_mdl_strategy Strategy.PROFILE compiledMachine).state
      ≠ get_mdl_strategy compiledMachine := by
  refine ⟨rfl, rfl, rfl, ?_, by decide⟩
  rintro ⟨st, h⟩
  simp [set_mdl_strategy] at h

/-- C3, amended: `set_mdl_strategy` has no check of the compilation state. On
every model whose executable slot is filled, and for every strategy `u`,
the call returns normally, the stored strategy becomes `u`, and the
executable slot and every other member are as before. -/
theorem set_mdl_strategy_compiled (s : Machine) (u : Strategy)
    (h : (get_async_func s).isSome = true) :
    set_mdl_strategy u s = .ok () { s with mdl := { s.mdl with m_strategy := u } } ∧
      get_mdl_strategy (set_mdl_strategy u s).state = u ∧
      get_async_func (set_mdl_strategy u s).state = get_async_func s ∧
      (get_async_func (set_mdl_strategy u s).state).isSome = true := by
  refine ⟨rfl, rfl, rfl, ?_⟩
  simpa [set_mdl_strategy, Outcome.state, get_async_func] using h

/-- Witness of the amended C3 on the compiled sample model. -/
theorem set_mdl_strategy_compiled_witness :
    (get_async_func compiledMachine).isSome = true ∧
    set_mdl_strategy Strategy.PROFILE_REPRODUCIBLE compiledMachine =
      .ok () { compiledMachine with
        mdl := { compiledMachine.mdl with m_strategy := Strategy.PROFILE_REPRODUCIBLE } } ∧
    get_mdl_strategy (set_mdl_strategy Strategy.PROFILE_REPRODUCIBLE compiledMachine).state
      = Strategy.PROFILE_REPRODUCIBLE ∧
    get_async_func (set_mdl_strategy Strategy.PROFILE_REPRODUCIBLE compiledMachine).state
      = get_async_func compiledMachine ∧
    (get_async_func
      (set_mdl_strategy Strategy.PROFILE_REPRODUCIBLE compiledMachine).state).isSome = true :=
  ⟨rfl, set_mdl_strategy_compiled compiledMachine Strategy.PROFILE_REPRODUCIBLE rfl⟩

/-- C4: applying a strategy is idempotent. For every state and strategy `u`,
`set_mdl_strategy(u)` followed by `set_mdl_strategy(u)` has the same outcome
as a single `set_mdl_strategy(u)`: both return normally, in equal states
(every member of the model, and the heap). -/
theorem set_mdl_strategy_idempotent (s : Machine) (u : Strategy) :
    (set_mdl_strategy u s).andThen (set_mdl_strategy u) = set_mdl_strategy u s ∧
      ((set_mdl_strategy u s).andThen (set_mdl_strategy u)).state
        = (set_mdl_strategy u s).state ∧
      (set_mdl_strategy u s).returned = true :=
  ⟨rfl, rfl, rfl⟩

/-- C5: at most one handle of each kind is held, and attaching again replaces
the handle. In a state whose heap is well formed and whose two
instrumentation slots hold live objects (or nothing), `set_num_range_checker(r)`
returns normally with the slot holding exactly one checker; that checker is
live, is bound to the computing graph of the load config and has threshold
`r`; a checker held before is a different object, has been destroyed and is
no longer in the slot. The same holds of `set_profiler()` and the profiler
slot. -/
theorem instrumentation_replaced (s : Machine) (r : float) (hwf : s.heap.wf)
    (hc : slot_live s.heap s.mdl.m_num_range_checker)
    (hp : slot_live s.heap s.mdl.m_profiler) :
    (∃ s' c, set_num_range_checker r s = .ok () s' ∧
      s'.mdl.m_num_range_checker = some c ∧
      s'.mdl.m_num_range_checker.toList.length = 1 ∧
      c.obj.graph = smart_ptr_get s'.mdl.m_load_config.comp_graph ∧
      c.obj.range = r ∧
      c.addr ∈ s'.heap.live ∧
      ∀ old ∈ s.mdl.m_num_range_checker,
        old.addr ≠ c.addr ∧ old.addr ∉ s'.heap.live ∧ s'.mdl.m_num_range_checker ≠ some old) ∧
    (∃ s' q, set_profiler s = .ok () s' ∧
      s'.mdl.m_profiler = some q ∧
      s'.mdl.m_profiler.toList.length = 1 ∧
      q.obj.graph = smart_ptr_get s'.mdl.m_load_config.comp_graph ∧
      q.addr ∈ s'.heap.live ∧
      ∀ old ∈ s.mdl.m_profiler,
        old.addr ≠ q.addr ∧ old.addr ∉ s'.heap.live ∧ s'.mdl.m_profiler ≠ some old) := by
  constructor
  · refine ⟨_, _, rfl, rfl, rfl, rfl, rfl, ?_, ?_⟩
    · cases hold : s.mdl.m_num_range_checker with
      | none => simp [unique_ptr_assign, make_unique]
      | some old =>
        have hlt : old.addr < s.heap.next := hwf _ (hc old (by simp [hold]))
        have hne : s.heap.next ≠ old.addr := Nat.ne_of_gt hlt
        simp [unique_ptr_assign, make_unique, Heap.delete, hne]
    · intro old hold
      have hlt : old.addr < s.heap.next := hwf _ (hc old hold)
      have hne : old.addr ≠ s.heap.next := Nat.ne_of_lt hlt
      have hold2 : s.mdl.m_num_range_checker = some old := by simpa using hold
      refine ⟨by simpa [make_unique] using hne, ?_, ?_⟩
      · simp [unique_ptr_assign, make_unique, Heap.delete, hold2]
      · intro heq
        simp only [unique_ptr_assign, make_unique, Option.some.injEq] at heq
        exact hne (by rw [← heq])
  · refine ⟨_, _, rfl, rfl, rfl, rfl, ?_, ?_⟩
    · cases hold : s.mdl.m_profiler with
      | none => simp [unique_ptr_assign, make_unique]
      | some old =>
        have hlt : old.addr < s.heap.next := hwf _ (hp old (by simp [hold]))
        have hne : s.heap.next ≠ old.addr := Nat.ne_of_gt hlt
        simp [unique_ptr_assign, make_unique, Heap.delete, hne]
    · intro old hold
      have hlt : old.addr < s.heap.next := hwf _ (hp old hold)
      have hne : old.addr ≠ s.heap.next := Nat.ne_of_lt hlt
      have hold2 : s.mdl.m_profiler = some old := by simpa using hold
      refine ⟨by simpa [make_unique] using hne, ?_, ?_⟩
      · simp [unique_ptr_assign, make_unique, Heap.delete, hold2]
      · intro heq
        simp only [unique_ptr_assign, make_unique, Option.some.injEq] at heq
        exact hne (by rw [← heq])

/-- Witness of C5 on the sample model with a checker and a profiler already
attached, and a new threshold. -/
theorem instrumentation_replaced_witness :
    (instrumentedMachine.heap.wf ∧
      slot_live instrumentedMachine.heap instrumentedMachine.mdl.m_num_range_checker ∧
      slot_live instrumentedMachine.heap instrumentedMachine.mdl.m_profiler) ∧
    (∃ s' c, set_num_range_checker (float.mk 9) instrumentedMachine = .ok () s' ∧
      s'.mdl.m_num_range_checker = some c ∧
      s'.mdl.m_num_range_checker.toList.length = 1 ∧
      c.obj.graph = smart_ptr_get s'.mdl.m_load_config.comp_graph ∧
      c.obj.range = float.mk 9 ∧
      c.addr ∈ s'.heap.live ∧
      ∀ old ∈ instrumentedMachine.mdl.m_num_range_checker,
        old.addr ≠ c.addr ∧ old.addr ∉ s'.heap.live ∧ s'.mdl.m_num_range_checker ≠ some old) ∧
    (∃ s' q, set_profiler instrumentedMachine = .ok () s' ∧
      s'.mdl.m_profiler = some q ∧
      s'.mdl.m_profiler.toList.length = 1 ∧
      q.obj.graph = smart_ptr_get s'.mdl.m_load_config.comp_graph ∧
      q.addr ∈ s'.heap.live ∧
      ∀ old ∈ instrumentedMachine.mdl.m_profiler,
        old.addr ≠ q.addr ∧ old.addr ∉ s'.heap.live ∧ s'.mdl.m_profiler ≠ some old) :=
  ⟨⟨by decide, by decide, by decide⟩,
    instrumentation_replaced instrumentedMachine (float.mk 9) (by decide) (by decide)
      (by decide)⟩

/-- C6: in the executor of the specification, `wait` before `run` is
rejected. In every executor state in which no run is in flight after
compilation, that is `Compiled` (compiled, `run` not yet called) or
`Completed` (the last `wait` has returned), `wait` throws `InvalidStateError`
and the state at that moment is the state before the call. -/
theorem wait_before_run_rejected (ex : ModelExecutor)
    (h : ex.state = ExecutorState.Compiled ∨ ex.state = ExecutorState.Completed) :
    wait ex = .thrown .InvalidStateError ex ∧ (wait ex).state = ex := by
  rcases h with h | h <;> simp [wait, h, Outcome.state]

/-- Witness of C6: the compiled sample model, on which `run` was not called. -/
theorem wait_before_run_rejected_witness :
    ((ModelExecutor.mk compiledMachine ExecutorState.Compiled).state = ExecutorState.Compiled ∨
      (ModelExecutor.mk compiledMachine ExecutorState.Compiled).state
        = ExecutorState.Completed) ∧
    wait (ModelExecutor.mk compiledMachine ExecutorState.Compiled) =
      .thrown .InvalidStateError (ModelExecutor.mk compiledMachine ExecutorState.Compiled) ∧
    (wait (ModelExecutor.mk compiledMachine ExecutorState.Compiled)).state =
      ModelExecutor.mk compiledMachine ExecutorState.Compiled :=
  ⟨Or.inl rfl,
    wait_before_run_rejected (ModelExecutor.mk compiledMachine ExecutorState.Compiled)
      (Or.inl rfl)⟩

/-- C7: the test-case count is fixed once loaded. Each configuration operation
of the header (`set_shared_mem`, `set_mdl_strategy`, `set_output_callback`
whether it returns or throws, `set_profiler`, `set_num_range_checker`)
leaves `testcase_num` as it was, and `get_testcase_num` returns the same
value after any sequence of these operations as before it. -/
theorem testcase_num_fixed :
    (∀ (op : ConfigOp) (s : Machine),
      get_testcase_num (op.run s).state = get_testcase_num s) ∧
    (∀ (ops : List ConfigOp) (s : Machine),
      get_testcase_num (run_ops ops s) = get_testcase_num s) := by
  refine ⟨fun op s => testcase_num_run op s, ?_⟩
  intro ops
  induction ops with
  | nil => intro s; rfl
  | cons op ops ih =>
    intro s
    show get_testcase_num (run_ops ops (op.run s).state) = get_testcase_num s
    rw [ih]
    exact testcase_num_run op s

/-- C8: attaching instrumentation changes only its own slot of the model.
`set_num_range_checker(r)` returns normally and leaves every member other than
`m_num_range_checker` as it was, and `set_profiler()` returns normally and
leaves every member other than `m_profiler` as it was: the strategy, the
callback list, the output spec, the load result, the test-case count, the
test inputs and the other instrumentation slot are equal before and after. -/
theorem instrumentation_frame (s : Machine) (r : float) :
    ((set_num_range_checker r s).returned = true ∧
      (set_num_range_checker r s).state.mdl =
        { s.mdl with
          m_num_range_checker := (set_num_range_checker r s).state.mdl.m_num_range_checker } ∧
      (set_num_range_checker r s).state.mdl.m_strategy = s.mdl.m_strategy ∧
      (set_num_range_checker r s).state.mdl.m_callbacks = s.mdl.m_callbacks ∧
      (set_num_range_checker r s).state.mdl.m_output_spec = s.mdl.m_output_spec ∧
      (set_num_range_checker r s).state.mdl.m_load_result = s.mdl.m_load_result ∧
      (set_num_range_checker r s).state.mdl.testcase_num = s.mdl.testcase_num ∧
      (set_num_range_checker r s).state.mdl.test_input_tensors = s.mdl.test_input_tensors ∧
      (set_num_range_checker r s).state.mdl.m_profiler = s.mdl.m_profiler) ∧
    ((set_profiler s).returned = true ∧
      (set_profiler s).state.mdl =
        { s.mdl with m_profiler := (set_profiler s).state.mdl.m_profiler } ∧
      (set_profiler s).state.mdl.m_strategy = s.mdl.m_strategy ∧
      (set_profiler s).state.mdl.m_callbacks = s.mdl.m_callbacks ∧
      (set_profiler s).state.mdl.m_output_spec = s.mdl.m_output_spec ∧
      (set_profiler s).state.mdl.m_load_result = s.mdl.m_load_result ∧
      (set_profiler s).state.mdl.testcase_num = s.mdl.testcase_num ∧
      (set_profiler s).state.mdl.test_input_tensors = s.mdl.test_input_tensors ∧
      (set_profiler s).state.mdl.m_num_range_checker = s.mdl.m_num_range_checker) :=
  ⟨⟨rfl, rfl, rfl, rfl, rfl, rfl, rfl, rfl, rfl⟩, ⟨rfl, rfl, rfl, rfl, rfl, rfl, rfl, rfl, rfl⟩⟩

/-- C9: `get_mdl_strategy` returns the strategy in force. On a model set up by
the default member initialiser it returns `HEURISTIC`, and it still does
after any sequence of the header's configuration operations none of which is
`set_mdl_strategy`; after `set_mdl_strategy(u)` it returns `u`; and
`set_mdl_strategy` returns normally and changes no member other than
`m_strategy`. -/
theorem get_mdl_strategy_in_force :
    (∀ (heap : Heap) (raw : ModelMdl),
      get_mdl_strategy ⟨heap, default_member_init raw⟩ = Strategy.HEURISTIC) ∧
    (∀ (heap : Heap) (raw : ModelMdl) (ops : List ConfigOp),
      (∀ op ∈ ops, op.is_set_mdl_strategy = false) →
      get_mdl_strategy (run_ops ops ⟨heap, default_member_init raw⟩) = Strategy.HEURISTIC) ∧
    (∀ (s : Machine) (u : Strategy),
      get_mdl_strategy (set_mdl_strategy u s).state = u) ∧
    (∀ (s : Machine) (u : Strategy),
      set_mdl_strategy u s = .ok () { s with mdl := { s.mdl with m_strategy := u } }) := by
  refine ⟨fun _ _ => rfl, ?_, fun _ _ => rfl, fun _ _ => rfl⟩
  have key : ∀ (ops : List ConfigOp) (s : Machine),
      (∀ op ∈ ops, op.is_set_mdl_strategy = false) →
      (run_ops ops s).mdl.m_strategy = s.mdl.m_strategy := by
    intro ops
    induction ops with
    | nil => intro s _; rfl
    | cons op ops ih =>
      intro s hall
      show (run_ops ops (op.run s).state).mdl.m_strategy = s.mdl.m_strategy
      rw [ih _ (fun o ho => hall o (List.mem_cons_of_mem _ ho))]
      exact m_strategy_run op s (hall op (List.mem_cons_self _ _))
  intro heap raw ops hall
  exact key ops _ hall

/-- Witness of C9: the sample model after member initialisation, then shared
memory switched on, a profiler attached and two callbacks set. -/
theorem get_mdl_strategy_in_force_witness :
    (∀ op ∈ [ConfigOp.set_shared_mem true, ConfigOp.set_profiler,
        ConfigOp.set_output_callback [Callback.mk 20, Callback.mk 21]],
      op.is_set_mdl_strategy = false) ∧
    get_mdl_strategy (run_ops [ConfigOp.set_shared_mem true, ConfigOp.set_profiler,
        ConfigOp.set_output_callback [Callback.mk 20, Callback.mk 21]]
      ⟨sampleMachine.heap, default_member_init sampleModel⟩) = Strategy.HEURISTIC :=
  ⟨by decide,
    get_mdl_strategy_in_force.2.1 sampleMachine.heap sampleModel
      [ConfigOp.set_shared_mem true, ConfigOp.set_profiler,
        ConfigOp.set_output_callback [Callback.mk 20, Callback.mk 21]] (by decide)⟩

end lar

namespace megdnn
namespace x86

/-- C10: the x86 AddUpdate operator always declares itself thread-safe. For
every operator object, whatever the state of its base sub-object,
`is_thread_safe()` returns true and the operator after the call is the
operator before it. -/
theorem AddUpdateImpl.is_thread_safe_true (Base : Type) (self : AddUpdateImpl Base) :
    self.is_thread_safe.1 = true ∧ self.is_thread_safe.2 = self ∧
      self.is_thread_safe = (true, self) :=
  ⟨rfl, rfl, rfl⟩

end x86
end megdnn
